import Mathlib

/-!
Verification development for the keyed-instances shapes demo
(src/c++11/shapes_publisher.cxx and src/c++11/shapes_subscriber.cxx).

The two translation units are shallowly embedded below:
machine integers become Int/Nat (all arithmetic here stays far from
overflow), C++ float expressions become real-number expressions, the
float-to-int conversion becomes explicit truncation toward zero, the
publisher's write loop and the subscriber's dispatch loop become
recursions over the loop counters, the terminal becomes an explicit
list of screen writes, and the lifecycle-log deque becomes a list.
-/

namespace Shapes

/-- Fill styles of a shape.  Modelled from the spec: the generated type
shapes.hpp is not under src/; §3 of the spec describes fillKind as an
"enumerated render style, constant per instance (solid, in this demo)". -/
inductive ShapeFillKind where
  | SOLID_FILL
  | TRANSPARENT_FILL
  | HORIZONTAL_HATCH_FILL
  | VERTICAL_HATCH_FILL
deriving DecidableEq, Repr

/-- ShapeTypeExtended: the unit of data exchanged
(color is the instance key; x, y are screen coordinates). -/
structure ShapeTypeExtended where
  color : String
  x : Int
  y : Int
  shapesize : Int
  fillKind : ShapeFillKind
deriving DecidableEq, Repr

/-- DDS instance states as observed by the subscriber
(dds::sub::status::InstanceState). -/
inductive InstanceState where
  | alive
  | not_alive_disposed
  | not_alive_no_writers
deriving DecidableEq, Repr

/-- DDS sample states (dds::sub::status::SampleState). -/
inductive SampleState where
  | read_state
  | not_read
deriving DecidableEq, Repr

/-- One notification delivered by one take() operation, as used by
process_data in shapes_subscriber.cxx: the validity flag and states of
sample.info(), the payload sample.data(), and the color obtained by
reader.key_value on the instance handle. -/
structure ReceivedSample where
  info_valid : Bool
  instance_state : InstanceState
  sample_state : SampleState
  data : ShapeTypeExtended
  key_color : String
deriving DecidableEq, Repr

/-- One mvaddstr call: row, column, text. -/
structure ScreenWrite where
  row : Nat
  col : Nat
  text : String
deriving DecidableEq, Repr

/-! ### Publisher embedding (shapes_publisher.cxx, run_publisher_application) -/

/-- Limit constant: const int left = 15 (shapes_publisher.cxx:54). -/
def left : Int := 15

/-- Limit constant: const int top = 15 (shapes_publisher.cxx:54). -/
def top : Int := 15

/-- Limit constant: const int right = 248 (shapes_publisher.cxx:54). -/
def right : Int := 248

/-- Limit constant: const int bottom = 278 (shapes_publisher.cxx:54). -/
def bottom : Int := 278

/-- const int shape_size = 30 (shapes_publisher.cxx:55). -/
def shape_size : Int := 30

/-- const float AMPLITUDE = 100.0f (shapes_publisher.cxx:57), embedded in ℝ. -/
noncomputable def AMPLITUDE : ℝ := 100

/-- const float FREQUENCY = 0.0475f (shapes_publisher.cxx:58), embedded in ℝ. -/
noncomputable def FREQUENCY : ℝ := 0.0475

/-- Truncation toward zero: the C++ conversion from a floating value to int
(applied when the float expression for y is assigned to the int variable y). -/
noncomputable def intTrunc (r : ℝ) : Int := if 0 ≤ r then ⌊r⌋ else ⌈r⌉

/-- Initializer of x: int x = left-shape_size (shapes_publisher.cxx:56). -/
def initX : Int := left - shape_size

/-- Initializer of y: int y = bottom - top / 2 (shapes_publisher.cxx:56);
under C precedence this is bottom - (top / 2) with integer division. -/
def initY : Int := bottom - top / 2

/-- One tick of the x update: if (++x > right) x = left-shape_size
(shapes_publisher.cxx:68-69), given the value of x before the increment. -/
def nextX (x : Int) : Int :=
  if x + 1 > right then left - shape_size else x + 1

/-- The value of x after n loop iterations; the x written at 0-based tick n
is xAt (n+1). -/
def xAt : Nat → Int
  | 0 => initX
  | n + 1 => nextX (xAt n)

/-- The y computed each iteration:
y = (int)(bottom - top) / 2 + AMPLITUDE * std::sin(FREQUENCY * x)
(shapes_publisher.cxx:71).  The cast applies to (bottom - top), the division
by 2 is integer division, the sum is a float expression and the assignment
to the int variable y truncates it toward zero. -/
noncomputable def publishedY (x : Int) : Int :=
  intTrunc ((((bottom - top) / 2 : Int) : ℝ) + AMPLITUDE * Real.sin (FREQUENCY * (x : ℝ)))

/-- Publisher (x, y) state after n iterations, started from an arbitrary
y initializer y0: each iteration advances x and overwrites y from the new x
before the write, so the pair written at tick n is pubStateFrom y0 (n+1). -/
noncomputable def pubStateFrom (y0 : Int) : Nat → Int × Int
  | 0 => (initX, y0)
  | n + 1 => ((nextX (pubStateFrom y0 n).1), publishedY (nextX (pubStateFrom y0 n).1))

/-- The publisher state sequence the code actually runs, from initY. -/
noncomputable def pubState : Nat → Int × Int := pubStateFrom initY

/-- The write loop counter (shapes_publisher.cxx:66):
for (; !application::shutdown_requested && samples_written < sample_count;
++samples_written).  flag w is the value of the shutdown flag observed at
the loop-condition check when samples_written = w; the second argument is
sample_count - w, the number of iterations still allowed by the counter.
Returns the final samples_written, which equals the number of writes. -/
def pubLoopAux (flag : Nat → Bool) : Nat → Nat → Nat
  | w, 0 => w
  | w, r + 1 => if flag w then w else pubLoopAux flag (w + 1) r

/-- Number of writer.write calls run_publisher_application performs. -/
def pubWrites (flag : Nat → Bool) (sample_count : Nat) : Nat :=
  pubLoopAux flag 0 sample_count

/-- The observable bus calls of run_publisher_application: the number of
writes, and the number of dispose_instance calls (the single unconditional
writer.dispose_instance after the loop, shapes_publisher.cxx:84). -/
def publisher_run (flag : Nat → Bool) (sample_count : Nat) : Nat × Nat :=
  (pubWrites flag sample_count, 1)

/-! ### Subscriber embedding (shapes_subscriber.cxx) -/

/-- Modelled from the spec: the colours enumeration and its ToStr names live
in a header that is not under src/; §4.4 describes "a fixed enumerated
palette" whose members, in subscriber main's init_pair order
(shapes_subscriber.cxx:172-179), are PURPLE, BLUE, RED, GREEN, YELLOW,
CYAN, MAGENTA, ORANGE.  Row index = position in this list. -/
def ToStr : List String :=
  ["PURPLE", "BLUE", "RED", "GREEN", "YELLOW", "CYAN", "MAGENTA", "ORANGE"]

/-- display_log (shapes_subscriber.cxx:47-59) acting on the log deque:
push_back the line, then if size() > 5 pop_front.  The terminal redraw of
the retained lines does not change the deque and is not modelled here. -/
def display_log (log : List String) (logline : String) : List String :=
  if 5 < (log ++ [logline]).length then (log ++ [logline]).drop 1
  else log ++ [logline]

/-- The scan loop of display_sample (shapes_subscriber.cxx:63-85): walk the
palette from row index c; on the first entry equal to shape.color(), write
the color name at (c, 0) and the streamed shape text at (c, 10), then
break.  shapeRepr stands for the middleware operator<< rendition of the
shape.  The attron/attroff styling calls change no cell contents and are
not modelled. -/
def display_sample_aux (shapeRepr : ShapeTypeExtended → String)
    (shape : ShapeTypeExtended) : Nat → List String → List ScreenWrite
  | _, [] => []
  | c, colName :: rest =>
    if shape.color = colName then
      [⟨c, 0, shape.color⟩, ⟨c, 10, shapeRepr shape⟩]
    else
      display_sample_aux shapeRepr shape (c + 1) rest

/-- display_sample: the screen writes produced for one shape. -/
def display_sample (shapeRepr : ShapeTypeExtended → String)
    (shape : ShapeTypeExtended) : List ScreenWrite :=
  display_sample_aux shapeRepr shape 0 ToStr

/-- The log line built for one invalid-data notification
(shapes_subscriber.cxx:100-116).  showIS stands for the middleware
operator<< rendition of an InstanceState value. -/
def lifecycleMessage (showIS : InstanceState → String)
    (keyColor : String) (ist : InstanceState) (sst : SampleState) : String :=
  if ist = InstanceState.not_alive_no_writers ∧ sst = SampleState.not_read then
    "Instance with key " ++ keyColor ++ " has dropped from the databus"
  else
    "Instance with key " ++ keyColor ++ " changed to " ++ showIS ist

/-- Result of one process_data call: the returned count, the shapes
forwarded to display_sample in order, and the lines passed to display_log
in order. -/
structure ProcessResult where
  count : Nat
  rendered : List ShapeTypeExtended
  logs : List String
deriving DecidableEq, Repr

/-- process_data (shapes_subscriber.cxx:88-121): iterate over the taken
batch; a valid sample increments count and goes to the render path; an
invalid sample produces exactly one lifecycle log line. -/
def process_data (showIS : InstanceState → String) :
    List ReceivedSample → ProcessResult
  | [] => ⟨0, [], []⟩
  | s :: restSamples =>
    if s.info_valid then
      ⟨(process_data showIS restSamples).count + 1,
       s.data :: (process_data showIS restSamples).rendered,
       (process_data showIS restSamples).logs⟩
    else
      ⟨(process_data showIS restSamples).count,
       (process_data showIS restSamples).rendered,
       lifecycleMessage showIS s.key_color s.instance_state s.sample_state
         :: (process_data showIS restSamples).logs⟩

/-- The subscriber receive loop (shapes_subscriber.cxx:150-155):
while (!shutdown_requested && samples_read < sample_count) dispatch once.
flag i is the shutdown flag observed at the check before dispatch i and
batch i is the count process_data returns from dispatch i.  The loop need
not terminate on its own, so it is run for at most fuel iterations;
returns (iterations executed, samples_read). -/
def subLoopAux (flag : Nat → Bool) (batch : Nat → Nat) (sample_count : Nat) :
    Nat → Nat → Nat → Nat × Nat
  | 0, i, readCount => (i, readCount)
  | fuel + 1, i, readCount =>
    if !flag i ∧ readCount < sample_count then
      subLoopAux flag batch sample_count fuel (i + 1) (readCount + batch i)
    else
      (i, readCount)

/-- The subscriber receive loop from its initial state samples_read = 0. -/
def subLoop (flag : Nat → Bool) (batch : Nat → Nat) (sample_count : Nat)
    (fuel : Nat) : Nat × Nat :=
  subLoopAux flag batch sample_count fuel 0 0

/-! ### Concrete fixtures used by witness theorems -/

/-- A concrete shape used by witnesses. -/
def demoShape : ShapeTypeExtended := ⟨"RED", 26, 135, 30, ShapeFillKind.SOLID_FILL⟩

/-- A concrete valid-data notification. -/
def demoValid : ReceivedSample :=
  ⟨true, InstanceState.alive, SampleState.not_read, demoShape, "RED"⟩

/-- A concrete metadata (invalid-data) notification: no writers remain and
the sample has not been read. -/
def demoDropped : ReceivedSample :=
  ⟨false, InstanceState.not_alive_no_writers, SampleState.not_read, demoShape, "RED"⟩

/-- A concrete taken batch: one valid sample then one metadata sample. -/
def demoBatch : List ReceivedSample := [demoValid, demoDropped]

/-! ### Spec-side definition, for comparison with the embedded code -/

/-- Written from the spec's words (§8): "y equals (bottom-top)/2
(integer-truncated) + round(amplitude * sin(frequency*x))" — the spec's
candidate formula for the published y, to be compared with publishedY. -/
noncomputable def spec_round_y (x : Int) : Int :=
  (bottom - top) / 2 + round (AMPLITUDE * Real.sin (FREQUENCY * (x : ℝ)))

end Shapes

namespace Shapes

/-! ### Helper lemmas -/

/-- The x variable always stays in the wrap window. -/
theorem xAt_bounds (n : Nat) : left - shape_size ≤ xAt n ∧ xAt n ≤ right := by
  induction n with
  | zero =>
    constructor <;> decide
  | succ n ih =>
    rcases ih with ⟨h1, h2⟩
    simp only [xAt, nextX, left, shape_size, right] at *
    split <;> omega

/-- Pushing onto a log that holds the most recent five entries of a history
l yields the most recent five entries of the extended history. -/
theorem display_log_step (l : List String) (a : String) :
    display_log (l.drop (l.length - 5)) a = (l ++ [a]).drop (l.length + 1 - 5) := by
  rcases le_or_lt l.length 4 with h | h
  · have e1 : l.length - 5 = 0 := by omega
    have e2 : l.length + 1 - 5 = 0 := by omega
    have hlen : ¬ 5 < (l ++ [a]).length := by
      simp only [List.length_append, List.length_cons, List.length_nil]
      omega
    rw [e1, e2, List.drop_zero, List.drop_zero]
    unfold display_log
    rw [if_neg hlen]
  · have e1 : (l.drop (l.length - 5)).length = 5 := by
      rw [List.length_drop]; omega
    have hgt : 5 < (l.drop (l.length - 5) ++ [a]).length := by
      simp only [List.length_append, e1, List.length_cons, List.length_nil]
      omega
    unfold display_log
    rw [if_pos hgt]
    rw [List.drop_append_of_le_length (by rw [e1]; omega)]
    rw [List.drop_drop]
    rw [List.drop_append_of_le_length (by omega)]
    have e2 : l.length - 5 + 1 = l.length + 1 - 5 := by omega
    rw [e2]

/-- The log buffer after any history of display_log calls holds exactly the
most recent five (or fewer) lines, in order. -/
theorem display_log_fold (ms : List String) :
    List.foldl display_log [] ms = ms.drop (ms.length - 5) := by
  induction ms using List.reverseRecOn with
  | nil => rfl
  | append_singleton l a ih =>
    rw [List.foldl_append, List.foldl_cons, List.foldl_nil, ih, display_log_step,
      List.length_append]
    rfl

/-- The write loop counter reaches the smaller of the remaining budget and
the tick of first observed shutdown. -/
theorem pubLoopAux_min (flag : Nat → Bool) :
    ∀ (r w T : Nat), (∀ i, i < T → flag (w + i) = false) → flag (w + T) = true →
      pubLoopAux flag w r = w + min r T := by
  intro r
  induction r with
  | zero =>
    intro w T _ _
    simp [pubLoopAux]
  | succ r ih =>
    intro w T hb hT
    cases T with
    | zero =>
      have hw : flag w = true := by simpa using hT
      simp [pubLoopAux, hw]
    | succ t =>
      have h0 : flag w = false := by simpa using hb 0 (by omega)
      have hb2 : ∀ i, i < t → flag (w + 1 + i) = false := by
        intro i hi
        have e : w + 1 + i = w + (i + 1) := by omega
        rw [e]
        exact hb (i + 1) (by omega)
      have hT2 : flag (w + 1 + t) = true := by
        have e : w + 1 + t = w + (t + 1) := by omega
        rw [e]; exact hT
      have step := ih (w + 1) t hb2 hT2
      simp only [pubLoopAux, h0, Bool.false_eq_true, if_false, step,
        Nat.succ_min_succ]
      omega

/-- The count returned by process_data is the number of valid samples. -/
theorem process_data_count (showIS : InstanceState → String)
    (l : List ReceivedSample) :
    (process_data showIS l).count = (l.filter (fun s => s.info_valid)).length := by
  induction l with
  | nil => rfl
  | cons s rest ih =>
    cases hv : s.info_valid <;>
      simp [process_data, hv, List.filter_cons, ih]

/-- The shapes forwarded to the render path are exactly the valid samples'
payloads, in order. -/
theorem process_data_rendered (showIS : InstanceState → String)
    (l : List ReceivedSample) :
    (process_data showIS l).rendered =
      (l.filter (fun s => s.info_valid)).map (fun s => s.data) := by
  induction l with
  | nil => rfl
  | cons s rest ih =>
    cases hv : s.info_valid <;>
      simp [process_data, hv, List.filter_cons, ih]

/-- One log line is passed to display_log per invalid sample. -/
theorem process_data_logs_length (showIS : InstanceState → String)
    (l : List ReceivedSample) :
    (process_data showIS l).logs.length =
      (l.filter (fun s => !s.info_valid)).length := by
  induction l with
  | nil => rfl
  | cons s rest ih =>
    cases hv : s.info_valid <;>
      simp [process_data, hv, List.filter_cons, ih]

/-- A color absent from the palette makes the scan loop fall through. -/
theorem display_sample_aux_not_found (shapeRepr : ShapeTypeExtended → String)
    (shape : ShapeTypeExtended) :
    ∀ (pal : List String) (c : Nat), shape.color ∉ pal →
      display_sample_aux shapeRepr shape c pal = [] := by
  intro pal
  induction pal with
  | nil =>
    intro c _
    rfl
  | cons colName rest ih =>
    intro c h
    have h1 : shape.color ≠ colName := fun e => h (by rw [e]; exact List.mem_cons_self _ _)
    simp only [display_sample_aux, if_neg h1]
    exact ih (c + 1) (fun hm => h (List.mem_cons_of_mem _ hm))

/-- Every screen write of the scan loop lands on the row of the first
palette entry equal to the shape's color. -/
theorem display_sample_aux_rows (shapeRepr : ShapeTypeExtended → String)
    (shape : ShapeTypeExtended) :
    ∀ (pal : List String) (c : Nat) (w : ScreenWrite),
      w ∈ display_sample_aux shapeRepr shape c pal →
      ∃ i, pal.findIdx? (fun s => shape.color == s) c = some i ∧ w.row = i := by
  intro pal
  induction pal with
  | nil =>
    intro c w hw
    simp [display_sample_aux] at hw
  | cons colName rest ih =>
    intro c w hw
    by_cases he : shape.color = colName
    · simp only [display_sample_aux, if_pos he] at hw
      refine ⟨c, ?_, ?_⟩
      · rw [List.findIdx?_cons, if_pos (by simp [he])]
      · simp only [List.mem_cons, List.mem_singleton, List.not_mem_nil, or_false] at hw
        rcases hw with rfl | rfl <;> rfl
    · simp only [display_sample_aux, if_neg he] at hw
      obtain ⟨i, hfind, hrow⟩ := ih (c + 1) w hw
      refine ⟨i, ?_, hrow⟩
      rw [List.findIdx?_cons, if_neg (by simp [he])]
      exact hfind

end Shapes

namespace Shapes

/-! ### Claim theorems -/

/-- C2: for every notification in a taken batch that carries no valid data,
process_data emits exactly one lifecycle log line keyed by the instance's
color: when the instance state is not-alive-no-writers and the sample state
is not-read the message says the instance has dropped from the databus, and
in every other case it says the instance changed to the instance state. -/
theorem C2_lifecycle_log_rule (showIS : InstanceState → String)
    (batchSamples : List ReceivedSample) :
    (process_data showIS batchSamples).logs =
      (batchSamples.filter (fun s => !s.info_valid)).map (fun s =>
        if s.instance_state = InstanceState.not_alive_no_writers ∧
            s.sample_state = SampleState.not_read then
          "Instance with key " ++ s.key_color ++ " has dropped from the databus"
        else
          "Instance with key " ++ s.key_color ++ " changed to " ++
            showIS s.instance_state) := by
  induction batchSamples with
  | nil => rfl
  | cons s rest ih =>
    cases hv : s.info_valid <;>
      simp [process_data, hv, List.filter_cons, lifecycleMessage, ih]

/-- C3: for any sample_count and any shutdown flag that is first observed
set at check T, the publisher performs exactly min sample_count T bus
writes, then exactly one dispose-instance call. -/
theorem C3_writes_then_one_dispose (flag : Nat → Bool) (sample_count T : Nat)
    (hbefore : ∀ i, i < T → flag i = false) (hshut : flag T = true) :
    publisher_run flag sample_count = (min sample_count T, 1) := by
  unfold publisher_run pubWrites
  rw [pubLoopAux_min flag sample_count 0 T (by simpa using hbefore) (by simpa using hshut)]
  rw [Nat.zero_add]

/-- Witness for C3: shutdown first observed at check 2 with sample_count 5
gives exactly two writes and one dispose. -/
theorem C3_witness :
    publisher_run (fun i => decide (2 ≤ i)) 5 = (2, 1) :=
  (C3_writes_then_one_dispose (fun i => decide (2 ≤ i)) 5 2
    (by intro i hi; simp only [decide_eq_false_iff_not]; omega)
    (by simp)).trans (by decide)

/-- C4: each loop iteration advances x by 1 and resets it to
left - shape_size as soon as it would exceed right, and every published x
(the value after the update of iteration n) lies in
[left - shape_size, right]. -/
theorem C4_x_advances_and_stays_in_range :
    (∀ n : Nat, xAt (n + 1) =
      if xAt n + 1 > right then left - shape_size else xAt n + 1) ∧
    ∀ n : Nat, left - shape_size ≤ xAt (n + 1) ∧ xAt (n + 1) ≤ right := by
  constructor
  · intro n
    rfl
  · intro n
    exact xAt_bounds (n + 1)

/-- C5: a taken batch with k valid-data notifications and m metadata
notifications makes process_data return exactly k, forward exactly the k
valid payloads to the shape-render path in order, and emit exactly m
lifecycle log messages. -/
theorem C5_reconciler_batch_counts (showIS : InstanceState → String)
    (batchSamples : List ReceivedSample) (k m : Nat)
    (hk : (batchSamples.filter (fun s => s.info_valid)).length = k)
    (hm : (batchSamples.filter (fun s => !s.info_valid)).length = m) :
    (process_data showIS batchSamples).count = k ∧
    (process_data showIS batchSamples).rendered =
      (batchSamples.filter (fun s => s.info_valid)).map (fun s => s.data) ∧
    (process_data showIS batchSamples).logs.length = m := by
  refine ⟨?_, process_data_rendered showIS batchSamples, ?_⟩
  · rw [process_data_count, hk]
  · rw [process_data_logs_length, hm]

/-- Witness for C5: a batch of one valid and one metadata notification
returns count 1, renders the one payload, and logs one message. -/
theorem C5_witness :
    (process_data (fun _ => "") demoBatch).count = 1 ∧
    (process_data (fun _ => "") demoBatch).rendered =
      (demoBatch.filter (fun s => s.info_valid)).map (fun s => s.data) ∧
    (process_data (fun _ => "") demoBatch).logs.length = 1 :=
  C5_reconciler_batch_counts (fun _ => "") demoBatch 1 1 (by decide) (by decide)

/-- C6: after any sequence of display_log calls starting from the empty
log, the log holds exactly the most recent at-most-5 pushed messages in
their original relative order; in particular pushing a 6th message evicts
exactly the oldest one. -/
theorem C6_log_bounded_fifo (ms : List String) :
    List.foldl display_log [] ms = ms.drop (ms.length - 5) ∧
    (List.foldl display_log [] ms).length ≤ 5 := by
  refine ⟨display_log_fold ms, ?_⟩
  rw [display_log_fold, List.length_drop]
  omega

/-- C7: a shape whose color matches no palette entry is silently ignored by
display_sample: no screen row is written (and the render path produces no
log line, display_sample issuing none at all). -/
theorem C7_unknown_color_silently_ignored (shapeRepr : ShapeTypeExtended → String)
    (shape : ShapeTypeExtended) (h : shape.color ∉ ToStr) :
    display_sample shapeRepr shape = [] :=
  display_sample_aux_not_found shapeRepr shape ToStr 0 h

/-- Witness for C7: the color MAUVE is outside the palette and renders
nothing. -/
theorem C7_witness :
    (⟨"MAUVE", 0, 0, 30, ShapeFillKind.SOLID_FILL⟩ : ShapeTypeExtended).color ∉ ToStr ∧
    display_sample (fun _ => "") ⟨"MAUVE", 0, 0, 30, ShapeFillKind.SOLID_FILL⟩ = [] :=
  ⟨by decide,
   C7_unknown_color_silently_ignored (fun _ => "")
     ⟨"MAUVE", 0, 0, 30, ShapeFillKind.SOLID_FILL⟩ (by decide)⟩

/-- C8 counterexample: with sample_count = 0 and the shutdown flag never
set, the publisher's loop performs zero writes and the subscriber's loop
performs zero dispatch iterations — both terminate at once on the count
condition, refuting the claim that sample_count 0 runs unbounded and stops
only via the shutdown flag. -/
theorem C8_counterexample :
    publisher_run (fun _ => false) 0 = (0, 1) ∧
    subLoop (fun _ => false) (fun _ => 1) 0 6 = (0, 0) := by
  constructor
  · rfl
  · rfl

/-- C8 (amended): when sample_count is 0 both loops exit immediately with
zero iterations, whatever the shutdown flag and incoming batches; the unset
default, not 0, is what yields a practically unbounded run. -/
theorem C8_zero_count_exits_immediately (flag : Nat → Bool) (batch : Nat → Nat)
    (fuel : Nat) :
    publisher_run flag 0 = (0, 1) ∧ subLoop flag batch 0 fuel = (0, 0) := by
  constructor
  · rfl
  · cases fuel with
    | zero => rfl
    | succ f => simp [subLoop, subLoopAux]

/-- C9: every screen write display_sample makes lands on the single row
whose index is the position of the first palette entry equal to the shape's
color — so at most one shape row is touched per call. -/
theorem C9_single_row_first_match (shapeRepr : ShapeTypeExtended → String)
    (shape : ShapeTypeExtended) (w : ScreenWrite)
    (hw : w ∈ display_sample shapeRepr shape) :
    ∃ i, ToStr.findIdx? (fun s => shape.color == s) = some i ∧ w.row = i :=
  display_sample_aux_rows shapeRepr shape ToStr 0 w hw

/-- Witness for C9: the RED shape's writes land on row 2, the index of RED
in the palette. -/
theorem C9_witness :
    ∃ i, ToStr.findIdx? (fun s => ("RED" : String) == s) = some i ∧
      (⟨2, 0, "RED"⟩ : ScreenWrite).row = i :=
  C9_single_row_first_match (fun _ => "")
    ⟨"RED", 0, 0, 30, ShapeFillKind.SOLID_FILL⟩ ⟨2, 0, "RED"⟩ (by decide)

end Shapes

namespace Shapes

/-- First projection of the publisher state does not depend on the y
initializer: it is the pure x trajectory. -/
theorem pubStateFrom_fst (y0 : Int) : ∀ n, (pubStateFrom y0 n).1 = xAt n := by
  intro n
  induction n with
  | zero => rfl
  | succ n ih => simp [pubStateFrom, xAt, ih]

/-- C1 counterexample: at tick x = 1 the code's y (truncation of the float
sum) is 135, while the spec's formula (integer offset plus the rounded sine
term) gives 136, so the claimed equation fails. -/
theorem C1_counterexample : publishedY 1 ≠ spec_round_y 1 := by
  have h1 : Real.sin (0.0475 : ℝ) < 0.0475 := Real.sin_lt (by norm_num)
  have h2 : (0.0475 : ℝ) - 0.0475 ^ 3 / 4 < Real.sin 0.0475 :=
    Real.sin_gt_sub_cube (by norm_num) (by norm_num)
  have hlo : (0.0474 : ℝ) < Real.sin 0.0475 := by
    have : (0.0474 : ℝ) < 0.0475 - 0.0475 ^ 3 / 4 := by norm_num
    linarith
  have harg : FREQUENCY * ((1 : Int) : ℝ) = (0.0475 : ℝ) := by
    unfold FREQUENCY
    push_cast
    ring
  have h131 : ((bottom - top) / 2 : Int) = 131 := by decide
  have hY : publishedY 1 = 135 := by
    unfold publishedY intTrunc AMPLITUDE
    rw [harg, h131]
    rw [if_pos (by push_cast; nlinarith)]
    rw [Int.floor_eq_iff]
    constructor <;> push_cast <;> nlinarith
  have hspec : spec_round_y 1 = 136 := by
    unfold spec_round_y AMPLITUDE
    rw [harg, h131]
    have hr : round ((100 : ℝ) * Real.sin 0.0475) = 5 := by
      rw [round_eq, Int.floor_eq_iff]
      constructor <;> push_cast <;> nlinarith
    rw [hr]
    decide
  rw [hY, hspec]
  decide

/-- C1 (amended): for every x the published y equals (bottom - top) / 2
with integer-truncated division plus the floor of
amplitude * sin(frequency * x) — the float sum is truncated toward zero
(floor, since it is always positive), not rounded; the value is a pure
function of x, hence deterministic and reproducible. -/
theorem C1_y_truncated_formula (x : Int) :
    publishedY x = (bottom - top) / 2 + ⌊AMPLITUDE * Real.sin (FREQUENCY * (x : ℝ))⌋ := by
  have hs2 : -1 ≤ Real.sin (FREQUENCY * (x : ℝ)) := Real.neg_one_le_sin _
  have harg : (0 : ℝ) ≤ (((bottom - top) / 2 : Int) : ℝ) +
      AMPLITUDE * Real.sin (FREQUENCY * (x : ℝ)) := by
    have h131 : ((bottom - top) / 2 : Int) = 131 := by decide
    rw [h131]
    unfold AMPLITUDE
    push_cast
    nlinarith
  unfold publishedY intTrunc
  rw [if_pos harg, Int.floor_int_add]

/-- C10: the y initializer is 271 (bottom - top / 2 under C precedence) and
is never published: every published state pair (from the first write on) is
independent of the initializer, since y is recomputed from the fresh x
before each write. -/
theorem C10_initial_y_never_published :
    initY = 271 ∧
    ∀ (y0 : Int) (n : Nat), pubStateFrom y0 (n + 1) = pubState (n + 1) := by
  constructor
  · decide
  · intro y0 n
    unfold pubState
    simp only [pubStateFrom, pubStateFrom_fst]

end Shapes
